import Mathlib

/-!
Shallow embedding of src/sms.py: the message lifecycle engine
(SMSDatabase and SMSMessenger) together with the two gateway send paths.
Timestamps are natural numbers; the current time is passed explicitly
wherever the source reads the clock (sqlite CURRENT_TIMESTAMP and
datetime('now')).  Provider behaviour (network I/O) is an explicit
outcome parameter: each send call either returns a parsed JSON receipt
or raises, mirroring requests plus the gateway classes.
-/

namespace SMS

/-- A row of the `messages` table (src/sms.py lines 161-175).
`id` is the AUTOINCREMENT primary key, 1-based; `message_id` is the
provider-assigned identifier column, NULL until a successful send. -/
structure Message where
  id : Nat
  contact_id : Option Nat
  recipient : String
  message : String
  status : String
  gateway : String
  message_id : Option String
  scheduled_at : Option Nat
  sent_at : Option Nat
  created_at : Nat
deriving Repr, DecidableEq

/-- A row of the `logs` (audit) table (src/sms.py lines 178-187). -/
structure LogEntry where
  message_id : Nat
  status : String
  details : String
deriving Repr, DecidableEq

/-- The persistent store: message rows and audit rows in insertion order. -/
structure DB where
  messages : List Message
  logs : List LogEntry
deriving Repr, DecidableEq

/-- The parsed JSON body a gateway send returns: the two identifier
fields the engine reads (`sid`, `message_uuid`) plus the raw payload
text (json.dumps of the dict) recorded in the audit log. -/
structure Receipt where
  sid : Option String
  message_uuid : Option String
  raw : String
deriving Repr, DecidableEq

/-- Outcome of one provider send call: the parsed receipt, or the text
of a raised exception. -/
inductive SendOutcome where
  | success (r : Receipt)
  | failure (err : String)
deriving Repr, DecidableEq

/-- Python truthiness of an optional string: None and "" are falsy. -/
def isTruthy : Option String → Bool
  | none => false
  | some s => !(s == "")

/-- Python `a or b` on optional strings, as used in
`result.get('sid') or result.get('message_uuid')`. -/
def pyOr (a b : Option String) : Option String :=
  if isTruthy a then a else b

/-- Next AUTOINCREMENT id: row ids are 1..n in insertion order. -/
def freshId (db : DB) : Nat := db.messages.length + 1

/-- SMSDatabase.log_message (lines 213-224): INSERT one messages row and
return its id. -/
def log_message (db : DB) (now : Nat) (recipient message gateway status : String)
    (scheduled_at : Option Nat) (contact_id : Option Nat) : Nat × DB :=
  (freshId db,
   { db with messages := db.messages ++
      [⟨freshId db, contact_id, recipient, message, status, gateway, none,
        scheduled_at, none, now⟩] })

/-- SMSDatabase.update_message_status (lines 226-238): with a truthy
gateway_message_id, set status, message_id and sent_at; otherwise set
only status.  The UPDATE targets rows whose primary key equals `mid`. -/
def update_message_status (db : DB) (now : Nat) (mid : Nat) (status : String)
    (gateway_message_id : Option String) : DB :=
  if isTruthy gateway_message_id then
    { db with messages := db.messages.map fun m =>
        if m.id = mid then
          { m with status := status, message_id := gateway_message_id,
                   sent_at := some now }
        else m }
  else
    { db with messages := db.messages.map fun m =>
        if m.id = mid then { m with status := status } else m }

/-- SMSDatabase.add_log_entry (lines 240-246). -/
def add_log_entry (db : DB) (mid : Nat) (status : String) (details : String) : DB :=
  { db with logs := db.logs ++ [⟨mid, status, details⟩] }

/-- The WHERE clause of get_pending_messages (lines 250-254):
status = 'pending' AND (scheduled_at IS NULL OR scheduled_at <= now). -/
def isDue (now : Nat) (m : Message) : Bool :=
  m.status == "pending" &&
    (match m.scheduled_at with
     | none => true
     | some t => decide (t ≤ now))

/-- SMSDatabase.get_pending_messages (lines 248-257). -/
def get_pending_messages (db : DB) (now : Nat) : List Message :=
  db.messages.filter (isDue now)

/-- SELECT of the messages row with a given primary key. -/
def findMsg (db : DB) (mid : Nat) : Option Message :=
  db.messages.find? fun m => m.id == mid

/-- The HTTP response the requests library hands to a gateway call:
status code, raw body text, parsed JSON body. -/
structure HttpResponse where
  status_code : Nat
  text : String
  jsonBody : Receipt
deriving Repr, DecidableEq

/-- TwilioGateway.send_sms (lines 51-68): returns response.json() on
status 201 and raises carrying response.text otherwise. -/
def TwilioGateway_send_sms (response : HttpResponse) : Except String Receipt :=
  if response.status_code = 201 then Except.ok response.jsonBody
  else Except.error ("Twilio API error: " ++ response.text)

/-- PlivoGateway.send_sms (lines 99-116): returns response.json() on
status 202 and raises carrying response.text otherwise. -/
def PlivoGateway_send_sms (response : HttpResponse) : Except String Receipt :=
  if response.status_code = 202 then Except.ok response.jsonBody
  else Except.error ("Plivo API error: " ++ response.text)

/-- SMSMessenger state: the database plus the registered gateway names
(the keys of self.gateways). -/
structure Engine where
  db : DB
  gateways : List String
deriving Repr, DecidableEq

/-- SMSMessenger.add_gateway (lines 274-277). -/
def add_gateway (e : Engine) (name : String) : Engine :=
  { e with gateways := name :: e.gateways }

/-- SMSMessenger.send_immediate_sms (lines 279-325).  The provider
call's behaviour is the explicit `outcome` parameter; the result is
the returned receipt or the re-raised exception, paired with the new
engine state.  The `db_message_id ≠ 0` guard mirrors the Python
truthiness test `if db_message_id:` (sqlite row ids start at 1). -/
def send_immediate_sms (e : Engine) (now : Nat)
    (gateway_name recipient message : String)
    (outcome : SendOutcome) : Except String Receipt × Engine :=
  if gateway_name ∉ e.gateways then
    (Except.error ("Gateway " ++ gateway_name ++ " not configured"), e)
  else
    let p := log_message e.db now recipient message gateway_name "pending" none none
    let db_message_id := p.1
    let db1 := p.2
    match outcome with
    | SendOutcome.success result =>
        let db2 := update_message_status db1 now db_message_id "sent"
          (pyOr result.sid result.message_uuid)
        let db3 := add_log_entry db2 db_message_id "sent" result.raw
        (Except.ok result, { e with db := db3 })
    | SendOutcome.failure err =>
        let db2 :=
          if db_message_id ≠ 0 then
            add_log_entry (update_message_status db1 now db_message_id "failed" none)
              db_message_id "failed" err
          else db1
        (Except.error err, { e with db := db2 })

/-- SMSMessenger.schedule_sms (lines 327-342). -/
def schedule_sms (e : Engine) (now : Nat) (gateway_name recipient message : String)
    (schedule_time : Nat) : Except String Nat × Engine :=
  if gateway_name ∉ e.gateways then
    (Except.error ("Gateway " ++ gateway_name ++ " not configured"), e)
  else
    let p := log_message e.db now recipient message gateway_name "scheduled"
      (some schedule_time) none
    (Except.ok p.1, { e with db := p.2 })

/-- One iteration of the loop body of process_scheduled_messages
(lines 348-384): skip (continue) if the gateway is unregistered,
otherwise attempt the send — outcome given by the oracle, keyed by
message id — and record the status update plus an audit entry. -/
def processOne (gws : List String) (now : Nat) (outcomes : Nat → SendOutcome)
    (db : DB) (m : Message) : DB :=
  if m.gateway ∈ gws then
    match outcomes m.id with
    | SendOutcome.success result =>
        add_log_entry
          (update_message_status db now m.id "sent"
            (pyOr result.sid result.message_uuid))
          m.id "sent" result.raw
    | SendOutcome.failure err =>
        add_log_entry (update_message_status db now m.id "failed" none)
          m.id "failed" err
  else db

/-- SMSMessenger.process_scheduled_messages (lines 344-384): snapshot
the due list once, then process each entry in order. -/
def process_scheduled_messages (e : Engine) (now : Nat)
    (outcomes : Nat → SendOutcome) : Engine :=
  { e with db :=
      (get_pending_messages e.db now).foldl (processOne e.gateways now outcomes) e.db }

/-- SMSMessenger.check_delivery_status (lines 386-392); `result` is the
outcome of the gateway's get_delivery_status call. -/
def check_delivery_status (e : Engine) (message_id : String) (gateway_name : String)
    (result : Except String Receipt) : Except String Receipt × Engine :=
  if gateway_name ∉ e.gateways then
    (Except.error ("Gateway " ++ gateway_name ++ " not configured"), e)
  else (result, e)

/-- SMSMessenger.get_gateway_balance (lines 394-400); `result` is the
outcome of the gateway's get_balance call. -/
def get_gateway_balance (e : Engine) (gateway_name : String)
    (result : Except String Rat) : Except String Rat × Engine :=
  if gateway_name ∉ e.gateways then
    (Except.error ("Gateway " ++ gateway_name ++ " not configured"), e)
  else (result, e)

/-- One caller-level engine operation, carrying the clock value and the
provider outcome(s) it observes. -/
inductive Op where
  | sendNow (now : Nat) (gateway recipient message : String) (outcome : SendOutcome)
  | scheduleFor (now : Nat) (gateway recipient message : String) (schedule_time : Nat)
  | drainDue (now : Nat) (outcomes : Nat → SendOutcome)
  | registerGateway (name : String)

/-- State transition of one operation (results discarded). -/
def applyOp (e : Engine) : Op → Engine
  | Op.sendNow now g r m o => (send_immediate_sms e now g r m o).2
  | Op.scheduleFor now g r m t => (schedule_sms e now g r m t).2
  | Op.drainDue now oc => process_scheduled_messages e now oc
  | Op.registerGateway n => add_gateway e n

/-- A fresh engine over an empty store (SMSMessenger.__init__ against a
new database file). -/
def initEngine : Engine := ⟨⟨[], []⟩, []⟩

/-- The engine state after a sequence of operations from a fresh store. -/
def run (ops : List Op) : Engine := ops.foldl applyOp initEngine

/-- The net effect of one send attempt on the targeted row: what
update_message_status leaves there for each possible outcome. -/
def applySend (now : Nat) (o : SendOutcome) (m : Message) : Message :=
  match o with
  | SendOutcome.success r =>
      if isTruthy (pyOr r.sid r.message_uuid) then
        { m with status := "sent", message_id := pyOr r.sid r.message_uuid,
                 sent_at := some now }
      else { m with status := "sent" }
  | SendOutcome.failure _ => { m with status := "failed" }

/-- The audit row one send attempt appends for its message. -/
def logFor (m : Message) (o : SendOutcome) : LogEntry :=
  match o with
  | SendOutcome.success r => ⟨m.id, "sent", r.raw⟩
  | SendOutcome.failure err => ⟨m.id, "failed", err⟩

/-! ### Helper lemmas about the store operations -/

/-- The per-row effect of update_message_status. -/
def updFn (now mid : Nat) (status : String) (gm : Option String) (m : Message) : Message :=
  if m.id = mid then
    (if isTruthy gm then
      { m with status := status, message_id := gm, sent_at := some now }
     else { m with status := status })
  else m

theorem update_messages_eq (db : DB) (now mid : Nat) (st : String) (gm : Option String) :
    update_message_status db now mid st gm =
      { db with messages := db.messages.map (updFn now mid st gm) } := by
  unfold update_message_status updFn
  cases h : isTruthy gm <;> simp [h]

theorem updFn_preserves_id (now mid : Nat) (st : String) (gm : Option String) (m : Message) :
    (updFn now mid st gm m).id = m.id := by
  unfold updFn
  by_cases h : m.id = mid
  · by_cases h2 : isTruthy gm <;> simp [h, h2]
  · simp [h]

theorem update_map_id (db : DB) (now mid : Nat) (st : String) (gm : Option String) :
    ((update_message_status db now mid st gm).messages).map Message.id =
      db.messages.map Message.id := by
  rw [update_messages_eq]
  show (db.messages.map (updFn now mid st gm)).map Message.id = db.messages.map Message.id
  rw [List.map_map]
  exact List.map_congr_left fun m _ => updFn_preserves_id now mid st gm m

theorem update_messages_length (db : DB) (now mid : Nat) (st : String) (gm : Option String) :
    (update_message_status db now mid st gm).messages.length = db.messages.length := by
  have h := congrArg List.length (update_map_id db now mid st gm)
  simpa using h

theorem update_logs (db : DB) (now mid : Nat) (st : String) (gm : Option String) :
    (update_message_status db now mid st gm).logs = db.logs := by
  unfold update_message_status
  split <;> rfl

theorem findMsg_add_log (db : DB) (mid : Nat) (st d : String) (k : Nat) :
    findMsg (add_log_entry db mid st d) k = findMsg db k := rfl

theorem findMsg_update (db : DB) (now mid : Nat) (st : String) (gm : Option String) (k : Nat) :
    findMsg (update_message_status db now mid st gm) k =
      (findMsg db k).map (updFn now mid st gm) := by
  rw [update_messages_eq]
  show (db.messages.map (updFn now mid st gm)).find? (fun x => x.id == k) =
    (db.messages.find? (fun x => x.id == k)).map (updFn now mid st gm)
  rw [List.find?_map]
  have hcong : ((fun x => x.id == k) ∘ updFn now mid st gm) = fun x : Message => x.id == k := by
    funext m
    simp [Function.comp, updFn_preserves_id]
  rw [hcong]

theorem findMsg_update_ne (db : DB) (now mid : Nat) (st : String) (gm : Option String)
    (k : Nat) (h : k ≠ mid) :
    findMsg (update_message_status db now mid st gm) k = findMsg db k := by
  rw [findMsg_update]
  cases hf : findMsg db k with
  | none => rfl
  | some m =>
    have hf' : db.messages.find? (fun x => x.id == k) = some m := hf
    have hp := List.find?_some (p := fun x : Message => x.id == k) hf'
    have hmk : m.id = k := by simpa using hp
    have hne : m.id ≠ mid := by rw [hmk]; exact h
    simp [updFn, hne]

theorem findMsg_update_self (db : DB) (now mid : Nat) (st : String) (gm : Option String)
    (m : Message) (hf : findMsg db mid = some m) :
    findMsg (update_message_status db now mid st gm) mid =
      some (updFn now mid st gm m) := by
  rw [findMsg_update, hf]
  rfl

theorem find?_append_left {p : Message → Bool} {l₁ : List Message} (l₂ : List Message)
    {a : Message} (h : l₁.find? p = some a) : (l₁ ++ l₂).find? p = some a := by
  rw [List.find?_append, h]
  rfl

theorem find?_of_mem_nodup {l : List Message} (hn : (l.map Message.id).Nodup)
    {m : Message} (hm : m ∈ l) : l.find? (fun x => x.id == m.id) = some m := by
  induction l with
  | nil => cases hm
  | cons x xs ih =>
    rw [List.map_cons, List.nodup_cons] at hn
    rcases List.mem_cons.mp hm with rfl | hmem
    · exact List.find?_cons_of_pos (p := fun x : Message => x.id == m.id) _ (by simp)
    · have hx : ¬((fun x : Message => x.id == m.id) x) = true := by
        simp only [beq_iff_eq]
        intro h
        exact hn.1 (h ▸ List.mem_map_of_mem Message.id hmem)
      rw [List.find?_cons_of_neg (p := fun x : Message => x.id == m.id) _ hx]
      exact ih hn.2 hmem

theorem findMsg_of_mem_nodup {db : DB} (hn : (db.messages.map Message.id).Nodup)
    {m : Message} (hm : m ∈ db.messages) : findMsg db m.id = some m :=
  find?_of_mem_nodup hn hm

/-! ### Lemmas about one drain-loop iteration and the whole drain fold -/

theorem processOne_map_id (gws : List String) (now : Nat) (oc : Nat → SendOutcome)
    (db : DB) (m : Message) :
    ((processOne gws now oc db m).messages).map Message.id =
      db.messages.map Message.id := by
  by_cases hg : m.gateway ∈ gws
  · cases hoc : oc m.id with
    | success r => simp [processOne, hg, hoc, add_log_entry, update_map_id]
    | failure err => simp [processOne, hg, hoc, add_log_entry, update_map_id]
  · simp [processOne, hg]

theorem processOne_logs (gws : List String) (now : Nat) (oc : Nat → SendOutcome)
    (db : DB) (m : Message) :
    (processOne gws now oc db m).logs =
      if m.gateway ∈ gws then db.logs ++ [logFor m (oc m.id)] else db.logs := by
  by_cases hg : m.gateway ∈ gws
  · cases hoc : oc m.id with
    | success r => simp [processOne, hg, hoc, add_log_entry, update_logs, logFor]
    | failure err => simp [processOne, hg, hoc, add_log_entry, update_logs, logFor]
  · simp [processOne, hg]

theorem processOne_findMsg_ne (gws : List String) (now : Nat) (oc : Nat → SendOutcome)
    (db : DB) (m : Message) (k : Nat) (h : k ≠ m.id) :
    findMsg (processOne gws now oc db m) k = findMsg db k := by
  by_cases hg : m.gateway ∈ gws
  · cases hoc : oc m.id with
    | success r =>
        simp [processOne, hg, hoc, findMsg_add_log, findMsg_update_ne _ _ _ _ _ _ h]
    | failure err =>
        simp [processOne, hg, hoc, findMsg_add_log, findMsg_update_ne _ _ _ _ _ _ h]
  · simp [processOne, hg]

theorem processOne_found (gws : List String) (now : Nat) (oc : Nat → SendOutcome)
    (db : DB) (m : Message) (hg : m.gateway ∈ gws) (hf : findMsg db m.id = some m) :
    findMsg (processOne gws now oc db m) m.id = some (applySend now (oc m.id) m) := by
  cases hoc : oc m.id with
  | success r =>
      have h := findMsg_update_self db now m.id "sent" (pyOr r.sid r.message_uuid) m hf
      simp [processOne, hg, hoc, findMsg_add_log, h, applySend, updFn]
  | failure err =>
      have h := findMsg_update_self db now m.id "failed" none m hf
      simp [processOne, hg, hoc, findMsg_add_log, h, applySend, updFn, isTruthy]

theorem drain_foldl_map_id (gws : List String) (now : Nat) (oc : Nat → SendOutcome)
    (ms : List Message) : ∀ db : DB,
    ((ms.foldl (processOne gws now oc) db).messages).map Message.id =
      db.messages.map Message.id := by
  induction ms with
  | nil => intro db; rfl
  | cons m ms ih =>
      intro db
      rw [List.foldl_cons, ih, processOne_map_id]

theorem drain_foldl_logs (gws : List String) (now : Nat) (oc : Nat → SendOutcome)
    (ms : List Message) : ∀ db : DB,
    (ms.foldl (processOne gws now oc) db).logs =
      db.logs ++ (ms.filter fun m => decide (m.gateway ∈ gws)).map
        (fun m => logFor m (oc m.id)) := by
  induction ms with
  | nil => intro db; simp
  | cons m ms ih =>
      intro db
      rw [List.foldl_cons, ih, processOne_logs]
      by_cases hg : m.gateway ∈ gws
      · simp [hg, List.filter_cons, List.append_assoc]
      · simp [hg, List.filter_cons]

theorem drain_foldl_findMsg_ne (gws : List String) (now : Nat) (oc : Nat → SendOutcome)
    (ms : List Message) : ∀ (db : DB) (k : Nat),
    (∀ m ∈ ms, m.id ≠ k) →
    findMsg (ms.foldl (processOne gws now oc) db) k = findMsg db k := by
  induction ms with
  | nil => intro db k _; rfl
  | cons m ms ih =>
      intro db k hk
      have h1 : k ≠ m.id := Ne.symm (hk m (List.mem_cons_self m ms))
      have h2 : ∀ x ∈ ms, x.id ≠ k := fun x hx => hk x (List.mem_cons_of_mem m hx)
      rw [List.foldl_cons, ih _ _ h2, processOne_findMsg_ne gws now oc db m k h1]

theorem drain_foldl_found (gws : List String) (now : Nat) (oc : Nat → SendOutcome)
    (ms : List Message) : ∀ (db : DB) (m : Message),
    (ms.map Message.id).Nodup → m ∈ ms → findMsg db m.id = some m →
    findMsg (ms.foldl (processOne gws now oc) db) m.id =
      if m.gateway ∈ gws then some (applySend now (oc m.id) m) else some m := by
  induction ms with
  | nil => intro db m _ hm _; cases hm
  | cons x xs ih =>
      intro db m hn hm hf
      rw [List.map_cons, List.nodup_cons] at hn
      rw [List.foldl_cons]
      rcases List.mem_cons.mp hm with rfl | hmem
      · have hxs : ∀ y ∈ xs, y.id ≠ m.id := by
          intro y hy h
          exact hn.1 (h ▸ List.mem_map_of_mem Message.id hy)
        rw [drain_foldl_findMsg_ne gws now oc xs _ _ hxs]
        by_cases hg : m.gateway ∈ gws
        · rw [if_pos hg]
          exact processOne_found gws now oc db m hg hf
        · rw [if_neg hg]
          simp [processOne, hg, hf]
      · have hne : m.id ≠ x.id := by
          intro h
          exact hn.1 (h ▸ List.mem_map_of_mem Message.id hmem)
        have hf' : findMsg (processOne gws now oc db x) m.id = some m := by
          rw [processOne_findMsg_ne gws now oc db x m.id hne]
          exact hf
        exact ih _ _ hn.2 hmem hf'

/-! ### Store well-formedness along engine runs -/

/-- Well-formedness of the store as sqlite maintains it: row ids are
pairwise distinct and lie in 1..n. -/
def DBok (db : DB) : Prop :=
  (db.messages.map Message.id).Nodup ∧
    ∀ i ∈ db.messages.map Message.id, 1 ≤ i ∧ i ≤ db.messages.length

theorem DBok_nil : DBok ⟨[], []⟩ := by
  constructor
  · exact List.nodup_nil
  · intro i hi
    simp at hi

theorem DBok_append (db : DB) (m : Message) (hm : m.id = db.messages.length + 1)
    (h : DBok db) : DBok { db with messages := db.messages ++ [m] } := by
  obtain ⟨hn, hb⟩ := h
  constructor
  · show ((db.messages ++ [m]).map Message.id).Nodup
    rw [List.map_append, List.nodup_append]
    refine ⟨hn, by simp, ?_⟩
    intro a ha ha2
    simp only [List.map_cons, List.map_nil, List.mem_singleton] at ha2
    have hle := (hb a ha).2
    rw [ha2, hm] at hle
    omega
  · intro i hi
    show 1 ≤ i ∧ i ≤ (db.messages ++ [m]).length
    rw [List.length_append, List.length_singleton]
    rw [show ({ db with messages := db.messages ++ [m] } : DB).messages
          = db.messages ++ [m] from rfl, List.map_append] at hi
    rcases List.mem_append.mp hi with h1 | h1
    · have := hb i h1
      omega
    · simp only [List.map_cons, List.map_nil, List.mem_singleton] at h1
      rw [h1, hm]
      omega

theorem DBok_of_map_id_eq (db db' : DB)
    (h : db'.messages.map Message.id = db.messages.map Message.id)
    (hok : DBok db) : DBok db' := by
  obtain ⟨hn, hb⟩ := hok
  have hlen : db'.messages.length = db.messages.length := by
    have h2 := congrArg List.length h
    simpa using h2
  constructor
  · rw [h]
    exact hn
  · intro i hi
    rw [h] at hi
    rw [hlen]
    exact hb i hi

theorem applyOp_DBok (e : Engine) (op : Op) (h : DBok e.db) : DBok (applyOp e op).db := by
  cases op with
  | registerGateway n => exact h
  | scheduleFor now g r m t =>
      by_cases hg : g ∉ e.gateways
      · simp only [applyOp, schedule_sms, if_pos hg]
        exact h
      · simp only [applyOp, schedule_sms, if_neg hg, log_message]
        exact DBok_append e.db _ rfl h
  | sendNow now g r m o =>
      by_cases hg : g ∉ e.gateways
      · simp only [applyOp, send_immediate_sms, if_pos hg]
        exact h
      · cases o with
        | success rc =>
            simp only [applyOp, send_immediate_sms, if_neg hg]
            have h1 : DBok ({ e.db with messages := e.db.messages ++
                [⟨freshId e.db, none, r, m, "pending", g, none, none, none, now⟩] } : DB) :=
              DBok_append e.db _ rfl h
            refine DBok_of_map_id_eq _ _ ?_ h1
            exact update_map_id _ now _ "sent" _
        | failure err =>
            simp only [applyOp, send_immediate_sms, if_neg hg, freshId, log_message,
              Nat.succ_ne_zero, ne_eq, not_false_eq_true, if_true, ite_true]
            have h1 : DBok ({ e.db with messages := e.db.messages ++
                [⟨e.db.messages.length + 1, none, r, m, "pending", g, none, none, none, now⟩] } : DB) :=
              DBok_append e.db _ rfl h
            refine DBok_of_map_id_eq _ _ ?_ h1
            exact update_map_id _ now _ "failed" _
  | drainDue now oc =>
      exact DBok_of_map_id_eq _ _
        (drain_foldl_map_id e.gateways now oc (get_pending_messages e.db now) e.db) h

theorem run_DBok (ops : List Op) : DBok (run ops).db := by
  suffices h : ∀ e, DBok e.db → DBok (ops.foldl applyOp e).db by
    exact h initEngine DBok_nil
  induction ops with
  | nil => intro e he; exact he
  | cons op ops ih =>
      intro e he
      rw [List.foldl_cons]
      exact ih _ (applyOp_DBok e op he)

/-! ### Facts about the due-work query -/

theorem mem_pending (db : DB) (now : Nat) (m : Message)
    (h : m ∈ get_pending_messages db now) :
    m ∈ db.messages ∧ m.status = "pending" := by
  have h2 := List.mem_filter.mp h
  refine ⟨h2.1, ?_⟩
  have h3 := h2.2
  unfold isDue at h3
  have h4 := (Bool.and_eq_true _ _).mp h3
  simpa using h4.1

theorem pending_nodup (db : DB) (now : Nat)
    (hn : (db.messages.map Message.id).Nodup) :
    ((get_pending_messages db now).map Message.id).Nodup :=
  List.Nodup.sublist (List.Sublist.map Message.id (List.filter_sublist db.messages)) hn

theorem pending_findMsg (db : DB) (now : Nat) (m : Message)
    (hn : (db.messages.map Message.id).Nodup)
    (h : m ∈ get_pending_messages db now) : findMsg db m.id = some m :=
  findMsg_of_mem_nodup hn (mem_pending db now m h).1

/-! ### The sent / sent_at / provider-id pairing invariant -/

/-- The pairing invariant for one row: status is `sent` exactly when
`sent_at` is set, exactly when the provider message id is set. -/
def SentPack (m : Message) : Prop :=
  (m.status = "sent" ↔ m.sent_at.isSome = true) ∧
    (m.status = "sent" ↔ m.message_id.isSome = true)

/-- A provider success whose receipt yields a truthy identifier under
`sid` or `message_uuid` (what the provider contract promises); failures
are unconstrained. -/
def goodOutcome : SendOutcome → Prop
  | SendOutcome.success r => isTruthy (pyOr r.sid r.message_uuid) = true
  | SendOutcome.failure _ => True

/-- All provider outcomes observed by an operation are good. -/
def GoodOp : Op → Prop
  | Op.sendNow _ _ _ _ o => goodOutcome o
  | Op.drainDue _ oc => ∀ n, goodOutcome (oc n)
  | _ => True

def Inv2 (e : Engine) : Prop := DBok e.db ∧ ∀ m ∈ e.db.messages, SentPack m

theorem isSome_of_isTruthy {x : Option String} (h : isTruthy x = true) :
    x.isSome = true := by
  cases x with
  | none => cases h
  | some s => rfl

theorem SentPack_not_sent (m : Message) (h1 : m.status ≠ "sent")
    (h2 : m.sent_at = none) (h3 : m.message_id = none) : SentPack m := by
  unfold SentPack
  rw [h2, h3]
  simp [h1]

theorem SentPack_applySend (now : Nat) (o : SendOutcome) (m : Message)
    (hm : SentPack m) (hp : m.status = "pending") (hgood : goodOutcome o) :
    SentPack (applySend now o m) := by
  have hns : m.status ≠ "sent" := by rw [hp]; decide
  cases o with
  | success r =>
      have hg : isTruthy (pyOr r.sid r.message_uuid) = true := hgood
      simp only [applySend]
      rw [if_pos hg]
      exact ⟨by simp, by simp [isSome_of_isTruthy hg]⟩
  | failure err =>
      obtain ⟨h1, h2⟩ := hm
      have hsa : m.sent_at = none := by
        cases hx : m.sent_at with
        | none => rfl
        | some t => exact absurd (h1.mpr (by rw [hx]; rfl)) hns
      have hmi : m.message_id = none := by
        cases hx : m.message_id with
        | none => rfl
        | some s => exact absurd (h2.mpr (by rw [hx]; rfl)) hns
      have hrec : SentPack { m with status := "failed" } := by
        apply SentPack_not_sent
        · show ("failed" : String) ≠ "sent"
          decide
        · exact hsa
        · exact hmi
      simp only [applySend]
      exact hrec

theorem DBok_fresh (db : DB) (h : DBok db) : ∀ x ∈ db.messages, x.id ≠ freshId db := by
  intro x hx heq
  have hb := (h.2 x.id (List.mem_map_of_mem Message.id hx)).2
  rw [heq] at hb
  unfold freshId at hb
  omega

theorem freshId_ne_zero (db : DB) : ¬ freshId db = 0 := by
  unfold freshId
  omega

theorem map_updFn_skip (l : List Message) (now k : Nat) (st : String)
    (gm : Option String) (h : ∀ x ∈ l, x.id ≠ k) :
    l.map (updFn now k st gm) = l := by
  induction l with
  | nil => rfl
  | cons x xs ih =>
      rw [List.map_cons, ih (fun y hy => h y (List.mem_cons_of_mem x hy))]
      congr 1
      simp [updFn, h x (List.mem_cons_self x xs)]

theorem add_log_messages (db : DB) (k : Nat) (st d : String) :
    (add_log_entry db k st d).messages = db.messages := rfl

theorem add_log_logs (db : DB) (k : Nat) (st d : String) :
    (add_log_entry db k st d).logs = db.logs ++ [⟨k, st, d⟩] := rfl

/-- Shape of the store after a successful immediate send: the prior rows
untouched, plus the new row as transformed by the send attempt. -/
theorem send_success_messages (e : Engine) (now : Nat) (g r msg : String) (rc : Receipt)
    (hgw : ¬ g ∉ e.gateways) (hid : ∀ x ∈ e.db.messages, x.id ≠ freshId e.db) :
    ((send_immediate_sms e now g r msg (SendOutcome.success rc)).2).db.messages =
      e.db.messages ++
        [applySend now (SendOutcome.success rc)
          ⟨freshId e.db, none, r, msg, "pending", g, none, none, none, now⟩] := by
  simp only [send_immediate_sms, if_neg hgw, log_message]
  rw [add_log_messages, update_messages_eq]
  show ((e.db.messages ++
      ([⟨freshId e.db, none, r, msg, "pending", g, none, none, none, now⟩] :
        List Message)).map
        (updFn now (freshId e.db) "sent" (pyOr rc.sid rc.message_uuid))) =
    e.db.messages ++
      [applySend now (SendOutcome.success rc)
        ⟨freshId e.db, none, r, msg, "pending", g, none, none, none, now⟩]
  rw [List.map_append]
  congr 1
  · exact map_updFn_skip _ _ _ _ _ hid
  · simp [updFn, applySend]

/-- Shape of the store after a failed immediate send. -/
theorem send_failure_messages (e : Engine) (now : Nat) (g r msg err : String)
    (hgw : ¬ g ∉ e.gateways) (hid : ∀ x ∈ e.db.messages, x.id ≠ freshId e.db) :
    ((send_immediate_sms e now g r msg (SendOutcome.failure err)).2).db.messages =
      e.db.messages ++
        [⟨freshId e.db, none, r, msg, "failed", g, none, none, none, now⟩] := by
  simp only [send_immediate_sms, if_neg hgw, log_message]
  rw [if_pos (freshId_ne_zero e.db), add_log_messages, update_messages_eq]
  show ((e.db.messages ++
      ([⟨freshId e.db, none, r, msg, "pending", g, none, none, none, now⟩] :
        List Message)).map
        (updFn now (freshId e.db) "failed" none)) =
    e.db.messages ++
      [⟨freshId e.db, none, r, msg, "failed", g, none, none, none, now⟩]
  rw [List.map_append]
  congr 1
  · exact map_updFn_skip _ _ _ _ _ hid
  · simp [updFn, isTruthy]

/-- Audit rows appended by a failed immediate send. -/
theorem send_failure_logs (e : Engine) (now : Nat) (g r msg err : String)
    (hgw : ¬ g ∉ e.gateways) :
    ((send_immediate_sms e now g r msg (SendOutcome.failure err)).2).db.logs =
      e.db.logs ++ [⟨freshId e.db, "failed", err⟩] := by
  simp only [send_immediate_sms, if_neg hgw, log_message]
  rw [if_pos (freshId_ne_zero e.db), add_log_logs, update_logs]

/-- The failed immediate send re-raises the provider's exception. -/
theorem send_failure_result (e : Engine) (now : Nat) (g r msg err : String)
    (hgw : ¬ g ∉ e.gateways) :
    (send_immediate_sms e now g r msg (SendOutcome.failure err)).1 =
      Except.error err := by
  simp only [send_immediate_sms, if_neg hgw]

/-- Shape of the store after a scheduled-send creation. -/
theorem schedule_messages (e : Engine) (now : Nat) (g r msg : String) (t : Nat)
    (hgw : ¬ g ∉ e.gateways) :
    ((schedule_sms e now g r msg t).2).db.messages =
      e.db.messages ++
        [⟨freshId e.db, none, r, msg, "scheduled", g, none, some t, none, now⟩] := by
  simp only [schedule_sms, if_neg hgw, log_message]

theorem drain_db_eq (e : Engine) (now : Nat) (oc : Nat → SendOutcome) :
    (process_scheduled_messages e now oc).db =
      (get_pending_messages e.db now).foldl (processOne e.gateways now oc) e.db := rfl

theorem Inv2_drain (e : Engine) (now : Nat) (oc : Nat → SendOutcome)
    (h : Inv2 e) (hgood : ∀ n, goodOutcome (oc n)) :
    ∀ x ∈ (process_scheduled_messages e now oc).db.messages, SentPack x := by
  obtain ⟨⟨hn, hb⟩, hpack⟩ := h
  intro x hx
  rw [drain_db_eq] at hx
  have hmap := drain_foldl_map_id e.gateways now oc (get_pending_messages e.db now) e.db
  have hn2 : ((((get_pending_messages e.db now).foldl (processOne e.gateways now oc)
      e.db).messages).map Message.id).Nodup := by
    rw [hmap]
    exact hn
  have hfx := findMsg_of_mem_nodup hn2 hx
  by_cases hin : ∃ mm ∈ get_pending_messages e.db now, mm.id = x.id
  · obtain ⟨mm, hmm, hmmid⟩ := hin
    have hf0 : findMsg e.db mm.id = some mm := pending_findMsg e.db now mm hn hmm
    have hfound := drain_foldl_found e.gateways now oc (get_pending_messages e.db now)
      e.db mm (pending_nodup e.db now hn) hmm hf0
    rw [hmmid] at hfound
    by_cases hreg : mm.gateway ∈ e.gateways
    · rw [if_pos hreg, hfx] at hfound
      have hxe : x = applySend now (oc x.id) mm := Option.some_inj.mp hfound
      rw [hxe]
      exact SentPack_applySend now _ mm (hpack mm (mem_pending e.db now mm hmm).1)
        (mem_pending e.db now mm hmm).2 (hgood x.id)
    · rw [if_neg hreg, hfx] at hfound
      have hxe : x = mm := Option.some_inj.mp hfound
      rw [hxe]
      exact hpack mm (mem_pending e.db now mm hmm).1
  · push_neg at hin
    have hkeep := drain_foldl_findMsg_ne e.gateways now oc (get_pending_messages e.db now)
      e.db x.id hin
    rw [hfx] at hkeep
    have hx2 : e.db.messages.find? (fun y => y.id == x.id) = some x := hkeep.symm
    exact hpack x (List.mem_of_find?_eq_some hx2)

theorem applyOp_Inv2 (e : Engine) (op : Op) (h : Inv2 e) (hg : GoodOp op) :
    Inv2 (applyOp e op) := by
  refine ⟨applyOp_DBok e op h.1, ?_⟩
  cases op with
  | registerGateway n => exact h.2
  | scheduleFor now g r m t =>
      by_cases hgw : g ∉ e.gateways
      · simp only [applyOp, schedule_sms, if_pos hgw]
        exact h.2
      · intro x hx
        simp only [applyOp] at hx
        rw [schedule_messages e now g r m t hgw] at hx
        rcases List.mem_append.mp hx with h1 | h1
        · exact h.2 x h1
        · rw [List.mem_singleton] at h1
          subst h1
          refine SentPack_not_sent _ ?_ rfl rfl
          show ("scheduled" : String) ≠ "sent"
          decide
  | sendNow now g r msg o =>
      by_cases hgw : g ∉ e.gateways
      · simp only [applyOp, send_immediate_sms, if_pos hgw]
        exact h.2
      · cases o with
        | success rc =>
            intro x hx
            simp only [applyOp] at hx
            rw [send_success_messages e now g r msg rc hgw (DBok_fresh e.db h.1)] at hx
            rcases List.mem_append.mp hx with h1 | h1
            · exact h.2 x h1
            · rw [List.mem_singleton] at h1
              subst h1
              refine SentPack_applySend now _ _ ?_ rfl hg
              refine SentPack_not_sent _ ?_ rfl rfl
              show ("pending" : String) ≠ "sent"
              decide
        | failure err =>
            intro x hx
            simp only [applyOp] at hx
            rw [send_failure_messages e now g r msg err hgw (DBok_fresh e.db h.1)] at hx
            rcases List.mem_append.mp hx with h1 | h1
            · exact h.2 x h1
            · rw [List.mem_singleton] at h1
              subst h1
              refine SentPack_not_sent _ ?_ rfl rfl
              show ("failed" : String) ≠ "sent"
              decide
  | drainDue now oc =>
      exact Inv2_drain e now oc h hg

theorem Inv2_init : Inv2 initEngine :=
  ⟨DBok_nil, by intro m hm; cases hm⟩

theorem Inv2_run (ops : List Op) (hg : ∀ op ∈ ops, GoodOp op) : Inv2 (run ops) := by
  have key : ∀ (l : List Op), (∀ op ∈ l, GoodOp op) →
      ∀ e, Inv2 e → Inv2 (l.foldl applyOp e) := by
    intro l
    induction l with
    | nil => intro _ e he; exact he
    | cons op l ih =>
        intro hgl e he
        rw [List.foldl_cons]
        exact ih (fun x hx => hgl x (List.mem_cons_of_mem op hx)) _
          (applyOp_Inv2 e op he (hgl op (List.mem_cons_self op l)))
  exact key ops hg initEngine Inv2_init

/-- No single operation ever rewrites a row whose stored status is not
`pending`: sends only touch the freshly inserted row, and a drain pass
only touches rows the due query returned (all status `pending`). -/
theorem applyOp_preserves_not_pending (e : Engine) (op : Op) (hok : DBok e.db)
    (k : Nat) (m : Message) (hf : findMsg e.db k = some m)
    (hnp : m.status ≠ "pending") :
    findMsg (applyOp e op).db k = some m := by
  have hf0 : e.db.messages.find? (fun y => y.id == k) = some m := hf
  have hmk : m.id = k := by
    have hp := List.find?_some (p := fun y : Message => y.id == k) hf0
    simpa using hp
  have hmem : m ∈ e.db.messages := List.mem_of_find?_eq_some hf0
  cases op with
  | registerGateway n => exact hf
  | scheduleFor now g r msg t =>
      by_cases hgw : g ∉ e.gateways
      · simp only [applyOp, schedule_sms, if_pos hgw]
        exact hf
      · simp only [applyOp]
        unfold findMsg
        rw [schedule_messages e now g r msg t hgw]
        exact find?_append_left _ hf0
  | sendNow now g r msg o =>
      by_cases hgw : g ∉ e.gateways
      · simp only [applyOp, send_immediate_sms, if_pos hgw]
        exact hf
      · cases o with
        | success rc =>
            simp only [applyOp]
            unfold findMsg
            rw [send_success_messages e now g r msg rc hgw (DBok_fresh e.db hok)]
            exact find?_append_left _ hf0
        | failure err =>
            simp only [applyOp]
            unfold findMsg
            rw [send_failure_messages e now g r msg err hgw (DBok_fresh e.db hok)]
            exact find?_append_left _ hf0
  | drainDue now oc =>
      have hne : ∀ mm ∈ get_pending_messages e.db now, mm.id ≠ k := by
        intro mm hmm heq
        have hfm : findMsg e.db mm.id = some mm :=
          pending_findMsg e.db now mm hok.1 hmm
        rw [heq, hf] at hfm
        have hmmeq : m = mm := Option.some_inj.mp hfm
        have hpend := (mem_pending e.db now mm hmm).2
        rw [← hmmeq] at hpend
        exact hnp hpend
      simp only [applyOp]
      rw [drain_db_eq, drain_foldl_findMsg_ne e.gateways now oc _ e.db k hne]
      exact hf


/-! ### Small structural equality helpers -/

theorem Prod_eq {A B : Type} (p : A × B) (a : A) (b : B)
    (h1 : p.1 = a) (h2 : p.2 = b) : p = (a, b) := by
  cases p
  cases h1
  cases h2
  rfl

theorem Engine_eq (e : Engine) (d : DB) (gws : List String)
    (h1 : e.db = d) (h2 : e.gateways = gws) : e = ⟨d, gws⟩ := by
  cases e
  cases h1
  cases h2
  rfl

theorem DB_eq (d : DB) (ms : List Message) (ls : List LogEntry)
    (h1 : d.messages = ms) (h2 : d.logs = ls) : d = ⟨ms, ls⟩ := by
  cases d
  cases h1
  cases h2
  rfl

theorem send_gateways (e : Engine) (now : Nat) (g r msg : String) (o : SendOutcome) :
    ((send_immediate_sms e now g r msg o).2).gateways = e.gateways := by
  unfold send_immediate_sms
  split
  · rfl
  · cases o <;> rfl

theorem logFor_message_id (m : Message) (o : SendOutcome) :
    (logFor m o).message_id = m.id := by
  cases o <;> rfl

/-! ### Claim C1 -/

def c1ops : List Op :=
  [Op.registerGateway "twilio",
   Op.scheduleFor 100 "twilio" "+15551230000" "hi" 5]

/-- C1: the spec says dueMessages returns every `pending` message plus
every `scheduled` message whose scheduled_at is at or before now, and
that a message scheduled in the past is due on the very next call.  The
code's query filters on status = 'pending' only, so a message created by
schedule_sms (status 'scheduled', here with scheduled_at 5 in the past
at now = 100) is never returned and a drain pass with an
always-succeeding provider leaves the store completely unchanged. -/
theorem c1_schedule_never_due :
    (run c1ops).db.messages.map (fun m => (m.status, m.scheduled_at)) =
        [("scheduled", some 5)] ∧
      get_pending_messages (run c1ops).db 100 = [] ∧
      process_scheduled_messages (run c1ops) 100
        (fun _ => SendOutcome.success ⟨some "SM123", none, "ok"⟩) = run c1ops :=
  ⟨rfl, rfl, rfl⟩

/-! ### Claim C2 -/

def c2ops : List Op :=
  [Op.registerGateway "g",
   Op.sendNow 3 "g" "+15551230000" "hi" (SendOutcome.success ⟨none, none, "ok"⟩)]

/-- C2 counterexample: a reachable state (one sendNow whose provider
call succeeds but whose receipt has neither `sid` nor `message_uuid`)
holds a message with status "sent" while sent_at and the provider id
are unset, so the three conditions are not pairwise equivalent for
arbitrary provider success outcomes. -/
theorem c2_pairing_fails_without_identifier :
    (run c2ops).db.messages.map (fun m => (m.status, m.sent_at, m.message_id)) =
        [("sent", (none : Option Nat), (none : Option String))] ∧
      ¬ (∀ m ∈ (run c2ops).db.messages,
          (m.status = "sent" ↔ m.sent_at.isSome = true)) := by
  constructor
  · rfl
  · decide

/-- C2 (amended): in every state reachable by sendNow, scheduleFor and
drainDue in which each successful provider receipt yields a non-empty
identifier under `sid` or `message_uuid`, the conditions status = sent,
sent_at set, and provider message id set are pairwise equivalent. -/
theorem c2_sent_pairing (ops : List Op) (hg : ∀ op ∈ ops, GoodOp op) :
    ∀ m ∈ (run ops).db.messages,
      (m.status = "sent" ↔ m.sent_at.isSome = true) ∧
        (m.sent_at.isSome = true ↔ m.message_id.isSome = true) ∧
        (m.status = "sent" ↔ m.message_id.isSome = true) := by
  intro m hm
  obtain ⟨h1, h2⟩ := (Inv2_run ops hg).2 m hm
  exact ⟨h1, ⟨fun h => h2.mp (h1.mpr h), fun h => h1.mp (h2.mpr h)⟩, h2⟩

def c2goodops : List Op :=
  [Op.registerGateway "g",
   Op.sendNow 3 "g" "+15551230000" "hi" (SendOutcome.success ⟨some "SM1", none, "ok"⟩)]

def c2msg : Message := ⟨1, none, "+15551230000", "hi", "sent", "g", some "SM1", none, some 3, 3⟩

/-- Witness for c2_sent_pairing at a concrete good run. -/
theorem c2_sent_pairing_witness :
    (c2msg.status = "sent" ↔ c2msg.sent_at.isSome = true) ∧
      (c2msg.sent_at.isSome = true ↔ c2msg.message_id.isSome = true) ∧
      (c2msg.status = "sent" ↔ c2msg.message_id.isSome = true) :=
  c2_sent_pairing c2goodops
    (by
      intro op hop
      rcases List.mem_cons.mp hop with rfl | hop
      · trivial
      · rcases List.mem_singleton.mp hop with rfl
        exact rfl)
    c2msg (by decide)

/-! ### Claim C3 -/

/-- C3: an immediate send through a registered gateway whose provider
call raises leaves exactly one new Message row (status "failed"),
exactly one new audit row (status "failed") referencing it, and
re-raises the original provider exception to the caller. -/
theorem c3_send_failure_records_and_reraises (e : Engine) (now : Nat)
    (g r msg err : String) (hg : g ∈ e.gateways) (hok : DBok e.db) :
    send_immediate_sms e now g r msg (SendOutcome.failure err) =
      (Except.error err,
       ⟨⟨e.db.messages ++
           [⟨freshId e.db, none, r, msg, "failed", g, none, none, none, now⟩],
         e.db.logs ++ [⟨freshId e.db, "failed", err⟩]⟩,
        e.gateways⟩) := by
  have hgw : ¬ g ∉ e.gateways := by simpa using hg
  refine Prod_eq _ _ _ (send_failure_result e now g r msg err hgw)
    (Engine_eq _ _ _ (DB_eq _ _ _
      (send_failure_messages e now g r msg err hgw (DBok_fresh e.db hok))
      (send_failure_logs e now g r msg err hgw))
      (send_gateways e now g r msg (SendOutcome.failure err)))

/-- Witness for c3_send_failure_records_and_reraises on an empty store. -/
theorem c3_send_failure_witness :
    send_immediate_sms ⟨⟨[], []⟩, ["g"]⟩ 7 "g" "r" "b" (SendOutcome.failure "boom") =
      (Except.error "boom",
       ⟨⟨[⟨1, none, "r", "b", "failed", "g", none, none, none, 7⟩],
         [⟨1, "failed", "boom"⟩]⟩, ["g"]⟩) :=
  c3_send_failure_records_and_reraises ⟨⟨[], []⟩, ["g"]⟩ 7 "g" "r" "b" "boom"
    (by decide) DBok_nil

/-! ### Claim C4 -/

/-- C4: a drain pass over the due snapshot, with every due message's
gateway registered, appends exactly one audit row per due message (in
order, regardless of which provider calls fail) and leaves every due
message updated according to its own outcome — one message's failure
never aborts the rest of the batch. -/
theorem c4_drain_no_early_abort (db : DB) (gws : List String) (now : Nat)
    (oc : Nat → SendOutcome) (hok : DBok db)
    (hreg : ∀ m ∈ get_pending_messages db now, m.gateway ∈ gws) :
    (process_scheduled_messages ⟨db, gws⟩ now oc).db.logs =
        db.logs ++ (get_pending_messages db now).map (fun m => logFor m (oc m.id)) ∧
      ∀ m ∈ get_pending_messages db now,
        findMsg (process_scheduled_messages ⟨db, gws⟩ now oc).db m.id =
          some (applySend now (oc m.id) m) := by
  constructor
  · show ((get_pending_messages db now).foldl (processOne gws now oc) db).logs = _
    rw [drain_foldl_logs]
    congr 1
    rw [List.filter_eq_self.mpr (fun a ha => decide_eq_true (hreg a ha))]
  · intro m hm
    show findMsg ((get_pending_messages db now).foldl (processOne gws now oc) db) m.id = _
    rw [drain_foldl_found gws now oc _ db m (pending_nodup db now hok.1) hm
      (pending_findMsg db now m hok.1 hm), if_pos (hreg m hm)]

def c4db : DB :=
  ⟨[⟨1, none, "r1", "m1", "pending", "g", none, none, none, 0⟩,
    ⟨2, none, "r2", "m2", "pending", "g", none, none, none, 0⟩], []⟩

def c4oc : Nat → SendOutcome := fun n =>
  if n = 1 then SendOutcome.failure "boom"
  else SendOutcome.success ⟨some "SM2", none, "ok"⟩

/-- Witness for c4_drain_no_early_abort: two due messages, the first
provider call raises, the second still goes through. -/
theorem c4_drain_witness :
    (process_scheduled_messages ⟨c4db, ["g"]⟩ 10 c4oc).db.logs =
        c4db.logs ++ (get_pending_messages c4db 10).map (fun m => logFor m (c4oc m.id)) ∧
      ∀ m ∈ get_pending_messages c4db 10,
        findMsg (process_scheduled_messages ⟨c4db, ["g"]⟩ 10 c4oc).db m.id =
          some (applySend 10 (c4oc m.id) m) :=
  c4_drain_no_early_abort c4db ["g"] 10 c4oc ⟨by decide, by decide⟩ (by decide)

/-! ### Claim C5 -/

/-- C5: an immediate send naming an unregistered gateway raises the
configuration error and returns the engine state unchanged — no message
row and no audit row is created. -/
theorem c5_unregistered_send_rejected (e : Engine) (now : Nat) (g r msg : String)
    (o : SendOutcome) (hg : g ∉ e.gateways) :
    send_immediate_sms e now g r msg o =
      (Except.error ("Gateway " ++ g ++ " not configured"), e) := by
  unfold send_immediate_sms
  rw [if_pos hg]

/-- Witness for c5_unregistered_send_rejected. -/
theorem c5_unregistered_send_witness :
    send_immediate_sms ⟨⟨[], []⟩, ["plivo"]⟩ 0 "twilio" "r" "b"
        (SendOutcome.success ⟨some "SM1", none, "ok"⟩) =
      (Except.error ("Gateway " ++ "twilio" ++ " not configured"),
        ⟨⟨[], []⟩, ["plivo"]⟩) :=
  c5_unregistered_send_rejected ⟨⟨[], []⟩, ["plivo"]⟩ 0 "twilio" "r" "b"
    (SendOutcome.success ⟨some "SM1", none, "ok"⟩) (by decide)

/-! ### Claim C6 -/

/-- C6: a due message whose gateway is unregistered at drain time is
skipped: its row is left exactly as it was (in particular not marked
failed), no audit row for it is appended by the pass, and every other
due message with a registered gateway is still processed. -/
theorem c6_unregistered_due_message_skipped (db : DB) (gws : List String)
    (now : Nat) (oc : Nat → SendOutcome) (m : Message) (hok : DBok db)
    (hm : m ∈ get_pending_messages db now) (hg : m.gateway ∉ gws) :
    findMsg (process_scheduled_messages ⟨db, gws⟩ now oc).db m.id = some m ∧
      (process_scheduled_messages ⟨db, gws⟩ now oc).db.logs.filter
          (fun l => l.message_id == m.id) =
        db.logs.filter (fun l => l.message_id == m.id) ∧
      ∀ m2 ∈ get_pending_messages db now, m2.gateway ∈ gws →
        findMsg (process_scheduled_messages ⟨db, gws⟩ now oc).db m2.id =
          some (applySend now (oc m2.id) m2) := by
  refine ⟨?_, ?_, ?_⟩
  · show findMsg ((get_pending_messages db now).foldl (processOne gws now oc) db) m.id = _
    rw [drain_foldl_found gws now oc _ db m (pending_nodup db now hok.1) hm
      (pending_findMsg db now m hok.1 hm), if_neg hg]
  · show (((get_pending_messages db now).foldl (processOne gws now oc) db).logs).filter
        (fun l => l.message_id == m.id) = _
    rw [drain_foldl_logs, List.filter_append]
    have hnew : ∀ l ∈ ((get_pending_messages db now).filter
        (fun x => decide (x.gateway ∈ gws))).map (fun x => logFor x (oc x.id)),
        ¬ ((fun l : LogEntry => l.message_id == m.id) l) = true := by
      intro l hl hbeq
      obtain ⟨x, hx, hlx⟩ := List.mem_map.mp hl
      have hx2 := List.mem_filter.mp hx
      have hxid : x.id = m.id := by
        rw [← hlx] at hbeq
        simpa [logFor_message_id] using hbeq
      have hxm : x = m :=
        List.inj_on_of_nodup_map (pending_nodup db now hok.1) hx2.1 hm hxid
      have hgin : x.gateway ∈ gws := of_decide_eq_true hx2.2
      rw [hxm] at hgin
      exact hg hgin
    rw [List.filter_eq_nil_iff.mpr hnew, List.append_nil]
  · intro m2 hm2 hreg2
    show findMsg ((get_pending_messages db now).foldl (processOne gws now oc) db) m2.id = _
    rw [drain_foldl_found gws now oc _ db m2 (pending_nodup db now hok.1) hm2
      (pending_findMsg db now m2 hok.1 hm2), if_pos hreg2]

def c6db : DB :=
  ⟨[⟨1, none, "r1", "m1", "pending", "h", none, none, none, 0⟩,
    ⟨2, none, "r2", "m2", "pending", "g", none, none, none, 0⟩], []⟩

def c6oc : Nat → SendOutcome := fun _ => SendOutcome.failure "boom"

/-- Witness for c6_unregistered_due_message_skipped: message 1 targets
the unregistered gateway "h" and is left untouched, message 2 targets
"g" and is processed. -/
theorem c6_unregistered_witness :
    findMsg (process_scheduled_messages ⟨c6db, ["g"]⟩ 10 c6oc).db 1 =
        some ⟨1, none, "r1", "m1", "pending", "h", none, none, none, 0⟩ ∧
      (process_scheduled_messages ⟨c6db, ["g"]⟩ 10 c6oc).db.logs.filter
          (fun l => l.message_id == 1) =
        c6db.logs.filter (fun l => l.message_id == 1) := by
  have h := c6_unregistered_due_message_skipped c6db ["g"] 10 c6oc
    ⟨1, none, "r1", "m1", "pending", "h", none, none, none, 0⟩
    ⟨by decide, by decide⟩ (by decide) (by decide)
  exact ⟨h.1, h.2.1⟩

/-! ### Claim C7 -/

/-- C7: under any further engine operation applied to any reachable
state, a message stored as "sent" or "failed" is left exactly as it is
(terminal states), and a message stored as "scheduled" never becomes
"pending". -/
theorem c7_terminal_states (ops : List Op) (op : Op) (k : Nat) (m : Message)
    (hf : findMsg (run ops).db k = some m) :
    ((m.status = "sent" ∨ m.status = "failed") →
        findMsg (applyOp (run ops) op).db k = some m) ∧
      (m.status = "scheduled" →
        ∀ m2, findMsg (applyOp (run ops) op).db k = some m2 →
          m2.status ≠ "pending") := by
  constructor
  · intro hterm
    apply applyOp_preserves_not_pending (run ops) op (run_DBok ops) k m hf
    rcases hterm with h | h <;> rw [h] <;> decide
  · intro hsch m2 hm2
    have hkeep := applyOp_preserves_not_pending (run ops) op (run_DBok ops) k m hf
      (by rw [hsch]; decide)
    rw [hkeep] at hm2
    have hm2m : m2 = m := (Option.some_inj.mp hm2).symm
    rw [hm2m, hsch]
    decide

def c7ops : List Op :=
  [Op.registerGateway "g",
   Op.sendNow 3 "g" "r" "b" (SendOutcome.success ⟨some "SM1", none, "ok"⟩)]

def c7msg : Message := ⟨1, none, "r", "b", "sent", "g", some "SM1", none, some 3, 3⟩

/-- Witness for c7_terminal_states: a sent message survives a drain pass
with a failing provider untouched. -/
theorem c7_terminal_witness :
    findMsg (applyOp (run c7ops)
        (Op.drainDue 10 (fun _ => SendOutcome.failure "x"))).db 1 = some c7msg :=
  (c7_terminal_states c7ops (Op.drainDue 10 (fun _ => SendOutcome.failure "x")) 1 c7msg
    (by decide)).1 (Or.inl rfl)

/-! ### Claim C8 -/

def c8db : DB := ⟨[⟨1, none, "r", "m", "pending", "g", none, none, none, 0⟩], []⟩

/-- C8 counterexample: updateStatus called with the supplied (but empty)
provider id "" takes the status-only branch — the id is not recorded and
sent_at is not stamped, contradicting the claim that any supplied
providerMessageId is recorded with sent_at set. -/
theorem c8_empty_id_not_recorded :
    (update_message_status c8db 7 1 "sent" (some "")).messages.map
        (fun m => (m.status, m.message_id, m.sent_at)) =
      [("sent", (none : Option String), (none : Option Nat))] ∧
      ¬ (∀ m ∈ (update_message_status c8db 7 1 "sent" (some "")).messages,
          m.message_id = some "" ∧ m.sent_at = some 7) := by
  constructor
  · rfl
  · decide

/-- C8 (amended): if the providerMessageId argument is supplied and
truthy (non-empty), the targeted row gets the new status, the provider
id and sent_at stamped to now; if it is absent or empty, every row's
message_id and sent_at are unchanged and the targeted row changes only
its status field. -/
theorem c8_update_semantics (db : DB) (now mid : Nat) (st : String)
    (gm : Option String) :
    (isTruthy gm = true →
      ∀ m, findMsg db mid = some m →
        findMsg (update_message_status db now mid st gm) mid =
          some { m with status := st, message_id := gm, sent_at := some now }) ∧
    (isTruthy gm = false →
      (update_message_status db now mid st gm).messages.map Message.message_id =
          db.messages.map Message.message_id ∧
        (update_message_status db now mid st gm).messages.map Message.sent_at =
          db.messages.map Message.sent_at ∧
        ∀ m, findMsg db mid = some m →
          findMsg (update_message_status db now mid st gm) mid =
            some { m with status := st }) := by
  constructor
  · intro hg m hm
    have hm0 : db.messages.find? (fun y => y.id == mid) = some m := hm
    have hmid : m.id = mid := by
      simpa using List.find?_some (p := fun y : Message => y.id == mid) hm0
    rw [findMsg_update_self db now mid st gm m hm]
    simp [updFn, hmid, hg]
  · intro hg
    refine ⟨?_, ?_, ?_⟩
    · rw [update_messages_eq]
      show (db.messages.map (updFn now mid st gm)).map Message.message_id = _
      rw [List.map_map]
      apply List.map_congr_left
      intro x _
      by_cases hid : x.id = mid
      · simp [updFn, hg, hid]
      · simp [updFn, hid]
    · rw [update_messages_eq]
      show (db.messages.map (updFn now mid st gm)).map Message.sent_at = _
      rw [List.map_map]
      apply List.map_congr_left
      intro x _
      by_cases hid : x.id = mid
      · simp [updFn, hg, hid]
      · simp [updFn, hid]
    · intro m hm
      have hm0 : db.messages.find? (fun y => y.id == mid) = some m := hm
      have hmid : m.id = mid := by
        simpa using List.find?_some (p := fun y : Message => y.id == mid) hm0
      rw [findMsg_update_self db now mid st gm m hm]
      simp [updFn, hmid, hg]

/-- Witness for c8_update_semantics: a truthy id is recorded with
sent_at stamped. -/
theorem c8_update_semantics_witness :
    findMsg (update_message_status c8db 7 1 "sent" (some "SM9")) 1 =
      some ⟨1, none, "r", "m", "sent", "g", some "SM9", none, some 7, 0⟩ :=
  (c8_update_semantics c8db 7 1 "sent" (some "SM9")).1 rfl
    ⟨1, none, "r", "m", "pending", "g", none, none, none, 0⟩ rfl

/-! ### Claim C9 -/

/-- C9: each gateway's send returns the parsed payload exactly when the
HTTP status equals its single documented success code (201 Twilio, 202
Plivo) and raises an error carrying the response body otherwise; the
engine's identifier extraction tries `sid` first and falls back to
`message_uuid`. -/
theorem c9_provider_contract :
    (∀ resp : HttpResponse,
        TwilioGateway_send_sms resp = Except.ok resp.jsonBody ↔
          resp.status_code = 201) ∧
      (∀ resp : HttpResponse, resp.status_code ≠ 201 →
        TwilioGateway_send_sms resp =
          Except.error ("Twilio API error: " ++ resp.text)) ∧
      (∀ resp : HttpResponse,
        PlivoGateway_send_sms resp = Except.ok resp.jsonBody ↔
          resp.status_code = 202) ∧
      (∀ resp : HttpResponse, resp.status_code ≠ 202 →
        PlivoGateway_send_sms resp =
          Except.error ("Plivo API error: " ++ resp.text)) ∧
      (∀ r : Receipt,
        (isTruthy r.sid = true → pyOr r.sid r.message_uuid = r.sid) ∧
          (isTruthy r.sid = false → pyOr r.sid r.message_uuid = r.message_uuid)) := by
  refine ⟨?_, ?_, ?_, ?_, ?_⟩
  · intro resp
    unfold TwilioGateway_send_sms
    by_cases h : resp.status_code = 201 <;> simp [h]
  · intro resp h
    unfold TwilioGateway_send_sms
    rw [if_neg h]
  · intro resp
    unfold PlivoGateway_send_sms
    by_cases h : resp.status_code = 202 <;> simp [h]
  · intro resp h
    unfold PlivoGateway_send_sms
    rw [if_neg h]
  · intro r
    constructor <;> intro h <;> unfold pyOr <;> simp [h]

/-- Witness for c9_provider_contract at concrete responses. -/
theorem c9_provider_witness :
    TwilioGateway_send_sms ⟨400, "denied", ⟨none, none, ""⟩⟩ =
        Except.error ("Twilio API error: " ++ "denied") ∧
      PlivoGateway_send_sms ⟨500, "oops", ⟨none, none, ""⟩⟩ =
        Except.error ("Plivo API error: " ++ "oops") ∧
      pyOr (some "SM1") (some "uu") = some "SM1" :=
  ⟨c9_provider_contract.2.1 ⟨400, "denied", ⟨none, none, ""⟩⟩ (by decide),
   c9_provider_contract.2.2.2.1 ⟨500, "oops", ⟨none, none, ""⟩⟩ (by decide),
   (c9_provider_contract.2.2.2.2 ⟨some "SM1", some "uu", ""⟩).1 rfl⟩

/-! ### Claim C10 -/

/-- C10: checking delivery status or gateway balance never changes the
engine state (and hence the store), whether the lookup fails on an
unregistered gateway or the gateway call itself succeeds or raises. -/
theorem c10_status_and_balance_pure (e : Engine) (mid g : String)
    (r1 : Except String Receipt) (r2 : Except String Rat) :
    (check_delivery_status e mid g r1).2 = e ∧ (get_gateway_balance e g r2).2 = e := by
  constructor
  · unfold check_delivery_status
    split <;> rfl
  · unfold get_gateway_balance
    split <;> rfl


end SMS
